import Mathlib

/-!
# Fukuoka flight tracker — verification of the tracking, classification and cache layers

A shallow embedding in Lean 4 of the parts of `z200200/fukuoka-flight-tracker`
that its specification talks about:

* the client tracking state machine — `scanAircraft` / `updatePositions` and the
  arrival/departure classification effect (`src/src/context/FlightContext.tsx`);
* the flight-identifier reconciliation between live callsigns and schedule
  flight numbers (`src/src/components/MapContainer.tsx`);
* the proxy server's bounded route/track caches and the HexDB route lookup
  (`server/index.js`);
* the AeroDataBox schedule cache (the `aerodatabox.js` service module).

JavaScript numbers are modelled by `ℚ` (the code performs only field copies and
elementary arithmetic on them; floating-point rounding is not modelled), nullable
values by `Option`, JS `Map`s by insertion-ordered association lists, and the
fetch layer by passing each network response in as an explicit argument
(`none` = the request threw).  Trigonometric helpers (`getDistance`,
great-circle bearing) are real-valued; they are passed in as explicit function
parameters where the surrounding logic is verified.
-/

namespace FlightTracker

/-! ## JavaScript-semantics helpers

Small helpers that make JS truthiness (`x || y`, `x ? a : b`), `String.trim`,
`String.toUpperCase` and `Array.sort` explicit in the embedding. -/

/-- JS whitespace (the ASCII part of `\s`), as used by `trim()` and `replace(/\s+/g, '')`. -/
def isJsSpace (c : Char) : Bool :=
  c = ' ' || c = '\t' || c = '\n' || c = '\r' || c = '\x0b' || c = '\x0c'

/-- `String.prototype.trim`: drop leading and trailing whitespace. -/
def jsTrim (s : String) : String :=
  ⟨((s.data.dropWhile isJsSpace).reverse.dropWhile isJsSpace).reverse⟩

/-- `String.prototype.toUpperCase` (ASCII range, the only one the data uses). -/
def jsUpper (s : String) : String :=
  ⟨s.data.map Char.toUpper⟩

/-- `s || d` for a nullable JS string `s`: `null` and `""` are falsy. -/
def jsStrOr (s : Option String) (d : String) : String :=
  match s with
  | some v => if v = "" then d else v
  | none => d

/-- `s || null` for a nullable JS string: collapses `""` to `null`. -/
def jsStrOrNull (s : Option String) : Option String :=
  match s with
  | some v => if v = "" then none else some v
  | none => none

/-- `x || d` for a nullable JS number: `null` and `0` are falsy. -/
def jsNumOr (x : Option ℚ) (d : ℚ) : ℚ :=
  match x with
  | some v => if v = 0 then d else v
  | none => d

/-- `n || d` for a JS number known to be non-null (`0` is falsy). -/
def jsNatOr (n d : ℕ) : ℕ :=
  if n = 0 then d else n

/-- `Math.round`: round to nearest, ties towards `+∞`. -/
def jsRound (q : ℚ) : ℤ :=
  ⌊q + 1/2⌋

/-- `callsign?.trim() || null`: trim a nullable string, collapsing `""` to `null`. -/
def jsTrimOrNull (s : Option String) : Option String :=
  match s with
  | some v => if jsTrim v = "" then none else some (jsTrim v)
  | none => none

/-- `String.prototype.split` with a one-character separator. -/
def splitOnChar (sep : Char) : List Char → List (List Char)
  | [] => [[]]
  | c :: rest =>
    let r := splitOnChar sep rest
    if c = sep then [] :: r
    else
      match r with
      | [] => [[c]]
      | piece :: more => (c :: piece) :: more

/-- `JsMap.set k v` on an insertion-ordered association list: an existing key is
overwritten in place (keeping its position in the iteration order), a new key is
appended at the end — exactly the iteration-order contract of a JS `Map`. -/
def jsMapSet {K V : Type} [DecidableEq K] : List (K × V) → K → V → List (K × V)
  | [], k, v => [(k, v)]
  | (k', v') :: rest, k, v =>
    if k' = k then (k, v) :: rest else (k', v') :: jsMapSet rest k v

/-- `JsMap.get k`: the value stored under `k`, if any. -/
def jsMapGet {K V : Type} [DecidableEq K] : List (K × V) → K → Option V
  | [], _ => none
  | (k', v) :: rest, k => if k' = k then some v else jsMapGet rest k

/-- `Array.prototype.sort(cmp)` for a total comparator: a stable comparator sort
(modern JS engines guarantee stability); modelled by insertion sort. -/
def jsSort {α : Type} (le : α → α → Prop) [DecidableRel le] (l : List α) : List α :=
  List.insertionSort le l

/-! ## Client data model (`src/src/types/flight.ts`, `src/src/config/airports.ts`,
`src/src/services/opensky.ts`) -/

/-- `RouteInfo` (`services/opensky.ts`): a HexDB route, origin/destination may be null. -/
structure RouteInfo where
  callsign : String
  origin : Option String
  destination : Option String
  route : Option String
deriving DecidableEq, Repr

/-- One sub-airport of a multi-airport region (`config/airports.ts`). -/
structure SubAirport where
  icao : String
  latitude : ℚ
  longitude : ℚ
deriving DecidableEq, Repr

/-- `AirportConfig` (`config/airports.ts`); `icao` may be slash-separated
(`"RJTT/RJAA"` for Tokyo). -/
structure AirportConfig where
  icao : String
  latitude : ℚ
  longitude : ℚ
  radiusKm : ℚ
  subAirports : List SubAirport := []
deriving DecidableEq, Repr

/-- `Flight` (`types/flight.ts`): one tracked aircraft as the client stores it. -/
structure Flight where
  icao24 : String
  callsign : Option String
  latitude : ℚ
  longitude : ℚ
  altitude : Option ℚ
  velocity : Option ℚ
  heading : Option ℚ
  onGround : Bool
  originCountry : String
  lastContact : ℕ
  departureAirport : Option String := none
  arrivalAirport : Option String := none
deriving DecidableEq, Repr

/-- `FlightInfo` (`types/flight.ts`): one classified arrival/departure entry. -/
structure FlightInfo where
  icao24 : String
  firstSeen : ℕ
  estDepartureAirport : Option String
  lastSeen : ℕ
  estArrivalAirport : Option String
  callsign : Option String
  estDepartureAirportHorizDistance : Option ℤ
  estDepartureAirportVertDistance : Option ℤ
  estArrivalAirportHorizDistance : Option ℤ
  estArrivalAirportVertDistance : Option ℤ
  departureAirportCandidatesCount : ℕ
  arrivalAirportCandidatesCount : ℕ
deriving DecidableEq, Repr

/-- The raw per-aircraft state object inside `scanAircraft` / `updatePositions`
(`FlightContext.tsx`, the `states` array of the `/api/adsb/aircraft` response). -/
structure AdsbStateVec where
  icao24 : String
  callsign : Option String
  latitude : Option ℚ
  longitude : Option ℚ
  baro_altitude : Option ℚ
  velocity : Option ℚ
  true_track : Option ℚ
  on_ground : Bool
  origin_country : String
deriving DecidableEq, Repr

/-! ## Arrival/departure classification
(`FlightContext.tsx`, the classification `useEffect`, lines 521–598)

`getDistance` (Haversine) and the great-circle bearing computed inside
`isHeadingTowards` are floating-point trigonometry; they enter the embedding as
explicit function parameters `getDist` / `bearingTo` so that the surrounding
control flow is verified for every possible value of those functions. -/

/-- `matchesAirport` : does an ICAO code belong to the current airport
(slash-separated multi-airport codes supported)?  `null` and `""` are falsy. -/
def matchesAirport (airport : AirportConfig) (icao : Option String) : Bool :=
  match icao with
  | none => false
  | some s =>
    if s = "" then false
    else (splitOnChar '/' airport.icao.data).contains s.data

/-- `getNearestAirportCoords`: the closest sub-airport's coordinates, or the main
airport's when there are none.  `acc.1 = none` models the initial
`nearestDist = Infinity`. -/
def getNearestAirportCoords (getDist : ℚ → ℚ → ℚ → ℚ → ℚ) (airport : AirportConfig)
    (lat lon : ℚ) : ℚ × ℚ :=
  if airport.subAirports.length > 0 then
    (airport.subAirports.foldl
      (fun acc sub =>
        let dist := getDist lat lon sub.latitude sub.longitude
        if (match acc.1 with | none => true | some nd => decide (dist < nd)) then
          (some dist, (sub.latitude, sub.longitude))
        else acc)
      ((none : Option ℚ), (airport.latitude, airport.longitude))).2
  else (airport.latitude, airport.longitude)

/-- The two inline lines of `isHeadingTowards` that wrap the heading/bearing
difference to the smaller angle:
`diff = |heading - bearing|; angleDiff = diff > 180 ? 360 - diff : diff`. -/
def angleDiffWrapped (heading bearing : ℚ) : ℚ :=
  let diff := |heading - bearing|
  if diff > 180 then 360 - diff else diff

/-- `isHeadingTowards` (`FlightContext.tsx` lines 484–498): `null` heading is
undeterminable; otherwise compare the wrapped difference between the reported
heading and the bearing to the airport against the 60° threshold.
`bearingTo flightLat flightLon airportLat airportLon` stands for the
`atan2`-based great-circle initial bearing normalised to `[0, 360)`. -/
def isHeadingTowards (bearingTo : ℚ → ℚ → ℚ → ℚ → ℚ)
    (flightLat flightLon : ℚ) (heading : Option ℚ) (airportLat airportLon : ℚ) :
    Option Bool :=
  match heading with
  | none => none
  | some h =>
    let bearing := bearingTo flightLat flightLon airportLat airportLon
    some (decide (angleDiffWrapped h bearing < 60))

/-- `flight.callsign ? flightRoutes.get(flight.callsign) : null` — the route
looked up for one flight (`""` and `null` callsigns are falsy). -/
def flightRoute (routes : String → Option RouteInfo) (flight : Flight) :
    Option RouteInfo :=
  match flight.callsign with
  | some cs => if cs = "" then none else routes cs
  | none => none

/-- The `flightInfo` object built for every flight before classification
(`// 创建FlightInfo对象` in the effect body). -/
def mkInfo (getDist : ℚ → ℚ → ℚ → ℚ → ℚ) (airport : AirportConfig)
    (routes : String → Option RouteInfo) (now : ℕ) (flight : Flight) :
    FlightInfo :=
  let nearestAirport := getNearestAirportCoords getDist airport flight.latitude flight.longitude
  let distance := getDist flight.latitude flight.longitude nearestAirport.1 nearestAirport.2
  let altitude := jsNumOr flight.altitude 0
  let route := flightRoute routes flight
  { icao24 := flight.icao24
    callsign := some (jsStrOr flight.callsign (jsUpper flight.icao24))
    firstSeen := jsNatOr flight.lastContact now
    lastSeen := jsNatOr flight.lastContact now
    estDepartureAirport := jsStrOrNull (route.bind (·.origin))
    estArrivalAirport := some (jsStrOr (route.bind (·.destination)) airport.icao)
    estDepartureAirportHorizDistance := some (jsRound (distance * 1000))
    estDepartureAirportVertDistance := if altitude = 0 then none else some (jsRound altitude)
    estArrivalAirportHorizDistance := some (jsRound (distance * 1000))
    estArrivalAirportVertDistance := if altitude = 0 then none else some (jsRound altitude)
    departureAirportCandidatesCount := 1
    arrivalAirportCandidatesCount := 1 }

/-- The per-flight body of `flights.forEach` in the classification effect:
build the `FlightInfo` record and classify the flight, `Sum.inl` = pushed to
`inferredArrivals`, `Sum.inr` = pushed to `inferredDepartures`. -/
def classifyOne (getDist bearingTo : ℚ → ℚ → ℚ → ℚ → ℚ) (airport : AirportConfig)
    (routes : String → Option RouteInfo) (now : ℕ) (flight : Flight) :
    FlightInfo ⊕ FlightInfo :=
  let nearestAirport := getNearestAirportCoords getDist airport flight.latitude flight.longitude
  let route := flightRoute routes flight
  let headingTowards := isHeadingTowards bearingTo flight.latitude flight.longitude
    flight.heading nearestAirport.1 nearestAirport.2
  let flightInfo := mkInfo getDist airport routes now flight
  -- step 2/3: direction test, then the default-arrival fallback
  let fallback : FlightInfo ⊕ FlightInfo :=
    match headingTowards with
    | some true => Sum.inl flightInfo
    | some false => Sum.inr { flightInfo with estDepartureAirport := some airport.icao }
    | none => Sum.inl flightInfo
  -- step 1: route information takes priority
  match route with
  | some r =>
    if matchesAirport airport r.destination then
      Sum.inl { flightInfo with
        estArrivalAirport := r.destination
        estDepartureAirport := r.origin }
    else if matchesAirport airport r.origin then
      Sum.inr { flightInfo with
        estDepartureAirport := r.origin
        estArrivalAirport := r.destination }
    else fallback
  | none => fallback

/-- The `flights.forEach` loop: split the flight list into the inferred arrival
and departure lists, preserving push order. -/
def inferFlightLists (getDist bearingTo : ℚ → ℚ → ℚ → ℚ → ℚ) (airport : AirportConfig)
    (routes : String → Option RouteInfo) (now : ℕ) :
    List Flight → List FlightInfo × List FlightInfo
  | [] => ([], [])
  | f :: rest =>
    let others := inferFlightLists getDist bearingTo airport routes now rest
    match classifyOne getDist bearingTo airport routes now f with
    | Sum.inl a => (a :: others.1, others.2)
    | Sum.inr d => (others.1, d :: others.2)

/-- Comparator of the final sorts:
`(a.est…HorizDistance || 0) - (b.est…HorizDistance || 0)` ascending. -/
def byDistance (dist : FlightInfo → Option ℤ) (a b : FlightInfo) : Prop :=
  (dist a).getD 0 ≤ (dist b).getD 0

instance (dist : FlightInfo → Option ℤ) : DecidableRel (byDistance dist) :=
  fun _ _ => inferInstanceAs (Decidable (_ ≤ _))

/-- The whole classification effect: empty flight list resets both lists;
otherwise classify every flight and sort each side by distance. -/
def classifyFlights (getDist bearingTo : ℚ → ℚ → ℚ → ℚ → ℚ) (airport : AirportConfig)
    (routes : String → Option RouteInfo) (now : ℕ) (flights : List Flight) :
    List FlightInfo × List FlightInfo :=
  if flights.length = 0 then ([], [])
  else
    let inferred := inferFlightLists getDist bearingTo airport routes now flights
    (jsSort (byDistance (·.estArrivalAirportHorizDistance)) inferred.1,
     jsSort (byDistance (·.estDepartureAirportHorizDistance)) inferred.2)

/-! ## Tracking state machine
(`FlightContext.tsx`: `scanAircraft` lines 275–329, `updatePositions` lines 332–388)

The fetch result enters as `Option (List AdsbStateVec)`: `none` models the
fetch throwing or the response carrying no `states` array.  `now` stands for
the timestamps taken during the call (`Date.now()`). -/

/-- The `.map` body of `scanAircraft`: build a `Flight` from a raw state.  The
`latitude as number` / `longitude as number` casts are sound because the map
runs after the null filters; they are modelled by `Option.getD 0`. -/
def mkScannedFlight (st : AdsbStateVec) (now : ℕ) : Flight where
  icao24 := st.icao24
  callsign := jsTrimOrNull st.callsign
  latitude := st.latitude.getD 0
  longitude := st.longitude.getD 0
  altitude := st.baro_altitude
  velocity := st.velocity
  heading := st.true_track
  onGround := st.on_ground
  originCountry := st.origin_country
  lastContact := now
  departureAirport := none
  arrivalAirport := none

/-- The `flightData` pipeline of `scanAircraft`: drop position-less states, drop
on-ground states, then build `Flight` records. -/
def scanFlightData (states : List AdsbStateVec) (now : ℕ) : List Flight :=
  (((states.filter fun st => st.latitude.isSome && st.longitude.isSome).filter
      fun st => !st.on_ground).map
    fun st => mkScannedFlight st now)

/-- The client tracking state: the `flights` state plus the locked ICAO set
(`lockedIcaosRef`) and the last rescan time. -/
structure TrackState where
  flights : List Flight
  lockedIcaos : Finset String
  lastScanTime : ℕ
deriving DecidableEq

/-- `scanAircraft`: on a usable, non-empty aircraft list, wholesale replace the
flight list and the locked ICAO set; otherwise (fetch threw, no `states` array,
or the filtered list came back empty) leave both untouched. -/
def scanAircraft (s : TrackState) (adsbResponse : Option (List AdsbStateVec))
    (now : ℕ) : TrackState :=
  match adsbResponse with
  | none => s
  | some states =>
    let flightData := scanFlightData states now
    if flightData.length > 0 then
      { flights := flightData
        lockedIcaos := (flightData.map (·.icao24)).toFinset
        lastScanTime := now }
    else s

/-- The `newPositions` map of `updatePositions`: of the response states, keep
those whose ICAO is locked; later response entries for the same ICAO overwrite
earlier ones (JS `Map.set`). -/
def buildNewPositions (states : List AdsbStateVec) (locked : Finset String) :
    List (String × AdsbStateVec) :=
  states.foldl
    (fun m st => if st.icao24 ∈ locked then jsMapSet m st.icao24 st else m) []

/-- The `prev.map` body of `updatePositions`: refresh one flight from
`newPositions` when it carries a position, otherwise keep the old record
(`return flight; // 保留旧位置`). -/
def updateFlight (newPositions : List (String × AdsbStateVec)) (now : ℕ)
    (flight : Flight) : Flight :=
  match jsMapGet newPositions flight.icao24 with
  | some updated =>
    if updated.latitude.isSome && updated.longitude.isSome then
      { flight with
        latitude := updated.latitude.getD flight.latitude
        longitude := updated.longitude.getD flight.longitude
        altitude := updated.baro_altitude
        velocity := updated.velocity
        heading := updated.true_track
        callsign := match jsTrimOrNull updated.callsign with
          | some c => some c
          | none => flight.callsign
        lastContact := now }
    else flight
  | none => flight

/-- `updatePositions`: refresh attributes of locked aircraft from the response;
aircraft missing from the response (or reported without a position) keep their
previous record; the tracked membership never changes. -/
def updatePositions (s : TrackState) (adsbResponse : Option (List AdsbStateVec))
    (now : ℕ) : TrackState :=
  if s.lockedIcaos = ∅ then s
  else
    match adsbResponse with
    | none => s
    | some states =>
      let newPositions := buildNewPositions states s.lockedIcaos
      { s with flights := s.flights.map (updateFlight newPositions now) }

/-! ## Proxy server state mapping (`server/index.js`, `/api/adsb/aircraft`,
lines 532–548): the adsb.lol aircraft objects are converted to OpenSky-style
state vectors; `on_ground` is `alt_baro === 'ground' || alt_baro === 0`. -/

/-- The `alt_baro` field of an adsb.lol aircraft: a number, the string
`"ground"`, or absent. -/
inductive JsAltBaro where
  | num (v : ℚ)
  | ground
  | undef
deriving DecidableEq, Repr

/-- An adsb.lol `ac` entry (the fields the `/api/adsb/aircraft` mapping reads). -/
structure AdsbLolAc where
  hex : String
  flight : Option String
  r : Option String
  lat : Option ℚ
  lon : Option ℚ
  alt_baro : JsAltBaro
  alt_geom : Option ℚ
  gs : Option ℚ
  track : Option ℚ
deriving DecidableEq, Repr

/-- `ac.alt_baro || ac.alt_geom || null` (`0` is falsy).  When `alt_baro` is the
string `"ground"` the JSON carries that string through; such states are
`on_ground` and never reach the client's flight list, so the embedding carries
`some 0` there. -/
def jsAltOr (alt : JsAltBaro) (geom : Option ℚ) : Option ℚ :=
  match alt with
  | .num v => if v = 0 then jsStrOrNullQ geom else some v
  | .ground => some 0
  | .undef => jsStrOrNullQ geom
where
  /-- `x || null` for a nullable number. -/
  jsStrOrNullQ (x : Option ℚ) : Option ℚ :=
    match x with
    | some v => if v = 0 then none else some v
    | none => none

/-- The `/api/adsb/aircraft` state mapping (`getCountryFromReg` is passed in). -/
def toStateVector (getCountryFromReg : String → String) (ac : AdsbLolAc) :
    AdsbStateVec where
  icao24 := ac.hex
  callsign := jsTrimOrNull ac.flight
  origin_country := match ac.r with
    | some reg => if reg = "" then "Unknown" else getCountryFromReg reg
    | none => "Unknown"
  latitude := ac.lat
  longitude := ac.lon
  baro_altitude := jsAltOr ac.alt_baro ac.alt_geom
  on_ground := ac.alt_baro = .ground || ac.alt_baro = .num 0
  velocity := match ac.gs with
    | some g => if g = 0 then none else some (g * (514444 / 1000000))
    | none => none
  true_track := match ac.track with
    | some t => if t = 0 then none else some t
    | none => none

/-! ## Bounded proxy-server caches (`server/index.js`)

The JS `Map`s are modelled as insertion-ordered association lists (`jsMapSet`
keeps an overwritten key at its old position, exactly like `Map.set`). -/

/-- `ROUTE_CACHE_MAX_AGE` — one hour, in milliseconds. -/
def ROUTE_CACHE_MAX_AGE : ℕ := 60 * 60 * 1000

/-- `ROUTE_CACHE_MAX_SIZE` — "最多缓存2000条航线" (cache at most 2000 routes). -/
def ROUTE_CACHE_MAX_SIZE : ℕ := 2000

/-- `TRACK_CACHE_MAX_SIZE` — "最多缓存500架飞机的航迹" (cache at most 500 tracks). -/
def TRACK_CACHE_MAX_SIZE : ℕ := 500

/-- `enforceMaxCacheSize(cache, maxSize)` (lines 342–352): when `cache.size`
exceeds `maxSize`, delete the `size - maxSize` oldest entries (the front of the
key iteration order); when `size <= maxSize` — including `size == maxSize` —
do nothing. -/
def enforceMaxCacheSize {K V : Type} (cache : List (K × V)) (maxSize : ℕ) :
    List (K × V) :=
  if cache.length ≤ maxSize then cache
  else cache.drop (cache.length - maxSize)

/-- One cached route (`routeCache` values). -/
structure RouteEntry where
  callsign : String
  origin : Option String
  destination : Option String
  route : Option String
  fetchedAt : ℕ
deriving DecidableEq, Repr

/-- The hexdb.io response as `fetchRoute` distinguishes it: the request threw
(`err`, e.g. a 404 or timeout), or returned data whose `route` field is a
string or absent. -/
inductive HexdbResponse where
  | err
  | ok (route : Option String)
deriving DecidableEq, Repr

/-- What one `fetchRoute` call produced: the returned value, the route cache
afterwards, and whether hexdb.io was contacted. -/
structure FetchRouteResult where
  result : Option RouteEntry
  cache : List (String × RouteEntry)
  contactedUpstream : Bool
deriving DecidableEq, Repr

/-- `fetchRoute(callsign)` (lines 591–630).  Cache hits younger than
`ROUTE_CACHE_MAX_AGE` are served without contacting hexdb.io.  On a response
with a usable `route` string the parsed entry is cached; on a thrown request a
negative entry (`origin/destination/route = null`) is cached; on a response
without a usable `route` field nothing is cached. -/
def fetchRoute (cache : List (String × RouteEntry)) (callsign : Option String)
    (now : ℕ) (upstream : HexdbResponse) : FetchRouteResult :=
  match callsign with
  | none => ⟨none, cache, false⟩
  | some cs =>
    if jsTrim cs = "" then ⟨none, cache, false⟩
    else
      let cleanCallsign := jsUpper (jsTrim cs)
      let cached := jsMapGet cache cleanCallsign
      if (match cached with
          | some c => decide (now - c.fetchedAt < ROUTE_CACHE_MAX_AGE)
          | none => false) then
        ⟨cached, cache, false⟩
      else
        match upstream with
        | .ok (some r) =>
          if r = "" then ⟨none, cache, true⟩
          else
            -- `RJTT-RJFF` → origin `RJTT`, destination `RJFF`
            let parts := (splitOnChar '-' r.data).map fun l => (⟨l⟩ : String)
            let routeData : RouteEntry :=
              { callsign := cleanCallsign
                origin := jsStrOrNull parts.head?
                destination := jsStrOrNull parts[1]?
                route := some r
                fetchedAt := now }
            ⟨some routeData,
             jsMapSet (enforceMaxCacheSize cache ROUTE_CACHE_MAX_SIZE)
               cleanCallsign routeData,
             true⟩
        | .ok none => ⟨none, cache, true⟩
        | .err =>
          let negEntry : RouteEntry :=
            { callsign := cleanCallsign, origin := none, destination := none
              route := none, fetchedAt := now }
          ⟨none,
           jsMapSet (enforceMaxCacheSize cache ROUTE_CACHE_MAX_SIZE)
             cleanCallsign negEntry,
           true⟩

/-- One cached track point (`trackCache` values are arrays of these). -/
structure TrackPoint where
  time : ℕ
  lat : ℚ
  lon : ℚ
  alt : Option ℚ
  track : Option ℚ
  gs : Option ℚ
deriving DecidableEq, Repr

/-- `ac.track || null` / `ac.gs || null` (`0` is falsy). -/
def jsNumOrNull (x : Option ℚ) : Option ℚ :=
  match x with
  | some v => if v = 0 then none else some v
  | none => none

/-- `String.prototype.toLowerCase` (ASCII range). -/
def jsLower (s : String) : String :=
  ⟨s.data.map Char.toLower⟩

/-- The per-aircraft body of `updateTrackCache` (lines 368–398): skip entries
without hex/lat/lon; for a new ICAO, enforce the size bound and create an empty
buffer; append the point unless the last buffered point is younger than 5 s. -/
def updateTrackCacheOne (cache : List (String × List TrackPoint)) (now : ℕ)
    (ac : AdsbLolAc) : List (String × List TrackPoint) :=
  if ac.hex = "" then cache
  else
    match ac.lat, ac.lon with
    | some la, some lo =>
      let icao := jsLower ac.hex
      let point : TrackPoint :=
        { time := now, lat := la, lon := lo
          alt := jsAltOr ac.alt_baro ac.alt_geom
          track := jsNumOrNull ac.track
          gs := jsNumOrNull ac.gs }
      let cache1 :=
        if (jsMapGet cache icao).isSome then cache
        else jsMapSet (enforceMaxCacheSize cache TRACK_CACHE_MAX_SIZE) icao []
      let points := (jsMapGet cache1 icao).getD []
      let points' :=
        match points.getLast? with
        | none => points ++ [point]
        | some lastPoint =>
          if now - lastPoint.time > 5000 then points ++ [point] else points
      jsMapSet cache1 icao points'
    | _, _ => cache

/-! ## AeroDataBox schedule cache (`aerodatabox.js`, `getAirportSchedule`) -/

/-- `CACHE_TTL` of the schedule cache — 10 minutes. -/
def SCHEDULE_CACHE_TTL : ℕ := 10 * 60 * 1000

/-- `MIN_REFRESH_INTERVAL` — the 5-minute minimum refresh floor. -/
def MIN_REFRESH_INTERVAL : ℕ := 5 * 60 * 1000

/-- One `scheduleCache` entry; the payload type is abstract (the claims only
need that it is returned unchanged). -/
structure SchedCacheEntry (D : Type) where
  data : D
  lastUpdate : ℕ
  userLastAccess : ℕ
deriving DecidableEq, Repr

/-- What the cache-decision prefix of `getAirportSchedule` did: served the
cached payload unchanged, or fell through to the upstream refresh. -/
inductive SchedOutcome (D : Type) where
  | cachedData (d : D)
  | refreshed
deriving DecidableEq, Repr

/-- The cache decision of `getAirportSchedule` (lines 354–424, after the
airport-code check): serve the cached payload while `cacheAge < CACHE_TTL`,
still serve it while `cacheAge < MIN_REFRESH_INTERVAL`, otherwise refresh
upstream (the refresh body itself always overwrites the entry afterwards). -/
def getAirportScheduleStep {D : Type} (cached : Option (SchedCacheEntry D))
    (now : ℕ) (forceRefresh : Bool) : SchedOutcome D :=
  match cached with
  | some e =>
    if !forceRefresh then
      let cacheAge := now - e.lastUpdate
      if cacheAge < SCHEDULE_CACHE_TTL then .cachedData e.data
      else if cacheAge < MIN_REFRESH_INTERVAL then .cachedData e.data
      else .refreshed
    else .refreshed
  | none => .refreshed

/-! ## Flight-identifier reconciliation (`MapContainer.tsx`, lines 101–201) -/

/-- The fixed IATA → ICAO carrier-prefix table (`IATA_TO_ICAO`, lines 101–168). -/
def IATA_TO_ICAO : List (String × String) :=
  [("JL", "JAL"), ("NH", "ANA"), ("BC", "SKY"), ("JQ", "JJP"), ("MM", "APJ"),
   ("GK", "JJA"), ("NU", "JTA"), ("HD", "ADO"), ("7G", "SFJ"), ("FW", "IBX"),
   ("DJ", "FDA"),
   ("MU", "CES"), ("CA", "CCA"), ("CZ", "CSN"), ("HU", "CHH"), ("SC", "CDG"),
   ("3U", "CSC"), ("MF", "CXA"), ("ZH", "CSZ"), ("9C", "CQH"),
   ("KE", "KAL"), ("OZ", "AAR"), ("LJ", "JNA"), ("TW", "TWB"), ("BX", "ABL"),
   ("7C", "JJA"), ("ZE", "ESR"), ("RF", "EOK"),
   ("BR", "EVA"), ("CI", "CAL"), ("IT", "TTW"), ("AE", "MDA"), ("B7", "UIA"),
   ("CX", "CPA"), ("HX", "CRK"), ("UO", "HKE"),
   ("SQ", "SIA"), ("TG", "THA"), ("VN", "HVN"), ("VJ", "VJC"), ("QF", "QFA"),
   ("PR", "PAL"), ("BI", "RBA"),
   ("AA", "AAL"), ("UA", "UAL"), ("DL", "DAL"), ("AF", "AFR"), ("BA", "BAW"),
   ("LH", "DLH"),
   ("FX", "FDX"), ("5X", "UPS")]

/-- `callsign.trim().replace(/\s+/g, '').toUpperCase()` — the normalisation
shared by `normalizeCallsign` and `convertIataToIcao`. -/
def normalizeIdent (s : String) : String :=
  jsUpper ⟨(jsTrim s).data.filter fun c => !isJsSpace c⟩

/-- `normalizeCallsign` (lines 171–174): `null` and `""` stay `null`. -/
def normalizeCallsign (callsign : Option String) : Option String :=
  match callsign with
  | none => none
  | some s => if s = "" then none else some (normalizeIdent s)

/-- `[A-Z]` — the character class of the carrier-code regex. -/
def isUpperAlpha (c : Char) : Bool :=
  'A' ≤ c && c ≤ 'Z'

/-- The anchored match `^([A-Z]{2}|[A-Z]\d|\d[A-Z]|[A-Z]{3})(\d+)$` of
`convertIataToIcao`: returns the captured carrier code and flight-number
digits.  The two-character alternatives need a digit in position 3 and the
three-character alternative a letter there, so the ordered alternation has at
most one successful branch and backtracking order does not matter. -/
def matchFlightCode : List Char → Option (List Char × List Char)
  | a :: b :: c :: rest =>
    let code2 := (isUpperAlpha a && isUpperAlpha b) ||
      (isUpperAlpha a && b.isDigit) || (a.isDigit && isUpperAlpha b)
    if code2 && (c :: rest).all Char.isDigit then some ([a, b], c :: rest)
    else if isUpperAlpha a && isUpperAlpha b && isUpperAlpha c &&
        !rest.isEmpty && rest.all Char.isDigit then some ([a, b, c], rest)
    else none
  | _ => none

/-- `convertIataToIcao` (lines 178–201): normalise; translate a 2-character
carrier prefix through the table; otherwise return the normalised identifier
unchanged. -/
def convertIataToIcao (flightNumber : Option String) : Option String :=
  match flightNumber with
  | none => none
  | some s =>
    if s = "" then none
    else
      let normalized := normalizeIdent s
      match matchFlightCode normalized.data with
      | none => some normalized
      | some (airlineCode, flightNum) =>
        if airlineCode.length = 2 then
          match jsMapGet IATA_TO_ICAO (⟨airlineCode⟩ : String) with
          | some icao =>
            if icao = "" then some normalized
            else some (icao ++ (⟨flightNum⟩ : String))
          | none => some normalized
        else some normalized

/-- The schedule-to-live matching test of `MapContainer`
(`convertIataToIcao(f.flightNumber) === normalizedCallsign`, lines 486–487). -/
def flightNumberMatchesCallsign (flightNumber callsign : Option String) : Bool :=
  convertIataToIcao flightNumber == normalizeCallsign callsign

/-! ## Concrete instances used by witnesses and counterexamples -/

/-- The Fukuoka entry of `AIRPORTS` (`config/airports.ts`). -/
def fukuokaAirport : AirportConfig :=
  { icao := "RJFF", latitude := 335859/10000, longitude := 130451/1000
    radiusKm := 100, subAirports := [] }

/-- A tracked aircraft with no callsign and no reported heading. -/
def flNoHeading : Flight :=
  { icao24 := "a", callsign := none, latitude := 33, longitude := 130
    altitude := none, velocity := none, heading := none, onGround := false
    originCountry := "Japan", lastContact := 100 }

/-- A tracked aircraft heading 10° with no callsign. -/
def flHeading10 : Flight :=
  { flNoHeading with icao24 := "b", heading := some 10 }

/-- Concrete airborne state vectors A, B, C and an on-ground one, as a rescan
response delivers them. -/
def svA : AdsbStateVec :=
  ⟨"a", some "JAL910", some 33, some 130, some 1000, some 200, some 90, false, "Japan"⟩

def svB : AdsbStateVec :=
  ⟨"b", none, some 34, some 131, none, none, none, false, "Japan"⟩

def svC : AdsbStateVec :=
  ⟨"c", some "ANA1", some 35, some 132, some 2000, some 210, some 180, false, "Japan"⟩

def svGround : AdsbStateVec :=
  ⟨"g", none, some 35, some 132, some 0, none, none, true, "Japan"⟩

/-- Position-only refreshes of A and C, and a state for an unlocked aircraft D. -/
def svA' : AdsbStateVec :=
  ⟨"a", some "JAL910", some 40, some 135, some 900, some 190, some 95, false, "Japan"⟩

def svC' : AdsbStateVec :=
  ⟨"c", some "ANA1", some 41, some 136, some 2100, some 220, some 170, false, "Japan"⟩

def svD : AdsbStateVec :=
  ⟨"d", none, some 10, some 10, none, none, none, false, "X"⟩

/-- The state after a rescan at `t = 0` returned `{A, B, C}`. -/
def trackedABC : TrackState :=
  scanAircraft ⟨[], ∅, 0⟩ (some [svA, svB, svC]) 0

/-! ## C1 — classification is a partition -/

theorem inferFlightLists_length (getDist bearingTo : ℚ → ℚ → ℚ → ℚ → ℚ)
    (airport : AirportConfig) (routes : String → Option RouteInfo) (now : ℕ)
    (flights : List Flight) :
    (inferFlightLists getDist bearingTo airport routes now flights).1.length +
    (inferFlightLists getDist bearingTo airport routes now flights).2.length
      = flights.length := by
  induction flights with
  | nil => rfl
  | cons f rest ih =>
    simp only [inferFlightLists]
    cases classifyOne getDist bearingTo airport routes now f <;>
      simp only [List.length_cons] <;> omega

/-- C1.  For every non-empty flight list the classification effect assigns each
tracked aircraft to exactly one of the inferred arrival/departure lists, so the
two list lengths sum to the tracked population size (the final distance sorts
preserve length). -/
theorem classification_is_partition (getDist bearingTo : ℚ → ℚ → ℚ → ℚ → ℚ)
    (airport : AirportConfig) (routes : String → Option RouteInfo) (now : ℕ)
    (flights : List Flight) (hne : flights ≠ []) :
    (classifyFlights getDist bearingTo airport routes now flights).1.length +
    (classifyFlights getDist bearingTo airport routes now flights).2.length
      = flights.length := by
  unfold classifyFlights
  rw [if_neg (by simpa using hne)]
  simp only [jsSort, List.length_insertionSort]
  exact inferFlightLists_length getDist bearingTo airport routes now flights

/-- Witness for C1 at a concrete one-aircraft population. -/
theorem classification_is_partition_witness :
    ([flNoHeading] ≠ []) ∧
    (classifyFlights (fun _ _ _ _ => 0) (fun _ _ _ _ => 0) fukuokaAirport
        (fun _ => none) 0 [flNoHeading]).1.length +
    (classifyFlights (fun _ _ _ _ => 0) (fun _ _ _ _ => 0) fukuokaAirport
        (fun _ => none) 0 [flNoHeading]).2.length = [flNoHeading].length :=
  ⟨List.cons_ne_nil _ _,
   classification_is_partition _ _ _ _ _ _ (List.cons_ne_nil _ _)⟩

/-! ## C5 — the heading test -/

/-- A flight has no usable route: either none was found for its callsign, or the
route touches the current airport in neither direction. -/
def NoUsableRoute (airport : AirportConfig) (routes : String → Option RouteInfo)
    (flight : Flight) : Prop :=
  match flightRoute routes flight with
  | none => True
  | some r => matchesAirport airport r.destination = false ∧
      matchesAirport airport r.origin = false

theorem classifyOne_no_route (getDist bearingTo : ℚ → ℚ → ℚ → ℚ → ℚ)
    (airport : AirportConfig) (routes : String → Option RouteInfo) (now : ℕ)
    (flight : Flight) (hroute : NoUsableRoute airport routes flight) :
    classifyOne getDist bearingTo airport routes now flight =
      (match isHeadingTowards bearingTo flight.latitude flight.longitude
          flight.heading
          (getNearestAirportCoords getDist airport flight.latitude flight.longitude).1
          (getNearestAirportCoords getDist airport flight.latitude flight.longitude).2 with
        | some true => Sum.inl (mkInfo getDist airport routes now flight)
        | some false => Sum.inr { mkInfo getDist airport routes now flight with
            estDepartureAirport := some airport.icao }
        | none => Sum.inl (mkInfo getDist airport routes now flight)) := by
  unfold NoUsableRoute at hroute
  unfold classifyOne mkInfo
  cases hr : flightRoute routes flight with
  | none => simp [hr]
  | some r =>
    rw [hr] at hroute
    simp [hr, hroute.1, hroute.2]

/-- C5.  With no usable route: a `null` heading is undeterminable and defaults
to arrival; otherwise the heading is compared with the bearing to the airport
after wrapping their absolute difference to the smaller angle (so 10° vs 350°
differs by 20°, the wrapped difference never exceeds 180°), and the aircraft is
an arrival exactly when that difference is under 60°. -/
theorem heading_test_spec :
    (∀ bearingTo la lo ala alo,
      isHeadingTowards bearingTo la lo none ala alo = none) ∧
    angleDiffWrapped 10 350 = 20 ∧
    (∀ h b : ℚ, 0 ≤ h → h ≤ 360 → 0 ≤ b → b ≤ 360 →
      0 ≤ angleDiffWrapped h b ∧ angleDiffWrapped h b ≤ 180) ∧
    (∀ bearingTo la lo (h : ℚ) ala alo,
      isHeadingTowards bearingTo la lo (some h) ala alo = some true ↔
        angleDiffWrapped h (bearingTo la lo ala alo) < 60) ∧
    (∀ getDist bearingTo airport routes now flight,
      NoUsableRoute airport routes flight → flight.heading = none →
        ∃ fi, classifyOne getDist bearingTo airport routes now flight = Sum.inl fi) ∧
    (∀ getDist bearingTo airport routes now flight (h : ℚ),
      NoUsableRoute airport routes flight → flight.heading = some h →
        ((∃ fi, classifyOne getDist bearingTo airport routes now flight = Sum.inl fi) ↔
          angleDiffWrapped h
            (bearingTo flight.latitude flight.longitude
              (getNearestAirportCoords getDist airport flight.latitude flight.longitude).1
              (getNearestAirportCoords getDist airport flight.latitude flight.longitude).2)
            < 60)) := by
  refine ⟨fun _ _ _ _ _ => rfl, ?_, ?_, ?_, ?_, ?_⟩
  · unfold angleDiffWrapped
    rw [show |(10:ℚ) - 350| = 340 by rw [show (10:ℚ) - 350 = -340 by norm_num]; simp]
    norm_num
  · intro h b h0 h360 b0 b360
    unfold angleDiffWrapped
    have habs : |h - b| ≤ 360 := abs_le.mpr ⟨by linarith, by linarith⟩
    have habs0 : 0 ≤ |h - b| := abs_nonneg _
    dsimp only
    split <;> constructor <;> linarith
  · intro bearingTo la lo h ala alo
    simp [isHeadingTowards]
  · intro getDist bearingTo airport routes now flight hroute hnone
    rw [classifyOne_no_route getDist bearingTo airport routes now flight hroute, hnone]
    exact ⟨_, rfl⟩
  · intro getDist bearingTo airport routes now flight h hroute hsome
    rw [classifyOne_no_route getDist bearingTo airport routes now flight hroute, hsome]
    unfold isHeadingTowards
    by_cases hlt : angleDiffWrapped h
        (bearingTo flight.latitude flight.longitude
          (getNearestAirportCoords getDist airport flight.latitude flight.longitude).1
          (getNearestAirportCoords getDist airport flight.latitude flight.longitude).2)
        < 60 <;>
      simp [hlt]

/-- Witness for C5: heading 10° vs a constant 350° bearing at a concrete
routeless aircraft. -/
theorem heading_test_spec_witness :
    NoUsableRoute fukuokaAirport (fun _ => none) flHeading10 ∧
    flHeading10.heading = some 10 ∧
    ((∃ fi, classifyOne (fun _ _ _ _ => 0) (fun _ _ _ _ => 350) fukuokaAirport
        (fun _ => none) 0 flHeading10 = Sum.inl fi) ↔
      angleDiffWrapped 10
        ((fun _ _ _ _ => (350:ℚ)) flHeading10.latitude flHeading10.longitude
          (getNearestAirportCoords (fun _ _ _ _ => 0) fukuokaAirport
            flHeading10.latitude flHeading10.longitude).1
          (getNearestAirportCoords (fun _ _ _ _ => 0) fukuokaAirport
            flHeading10.latitude flHeading10.longitude).2) < 60) :=
  ⟨trivial, rfl,
   heading_test_spec.2.2.2.2.2 (fun _ _ _ _ => 0) (fun _ _ _ _ => 350)
     fukuokaAirport (fun _ => none) 0 flHeading10 10 trivial rfl⟩

/-! ## C2 — rescans replace the tracked set -/

/-- C2 counterexample: after `{A, B, C}` is locked, a rescan whose usable
aircraft list is empty does *not* replace the tracked set with the empty
population — `scanAircraft` only replaces when `flightData.length > 0` — so the
tracked set keeps its 3 members instead of the 0 the claim demands. -/
theorem rescan_empty_list_not_replaced :
    (scanAircraft trackedABC (some []) 5).lockedIcaos.card ≠ 0 ∧
    scanAircraft trackedABC (some []) 5 = trackedABC := by
  constructor
  · decide
  · rfl

/-- C2 (amended).  A rescan whose filtered aircraft list is non-empty wholesale
replaces both the flight list and the locked ICAO set; with pairwise-distinct
ICAOs the new set has exactly as many members as the returned usable list. -/
theorem rescan_wholesale_replaces (s : TrackState) (states : List AdsbStateVec)
    (now : ℕ) (hne : scanFlightData states now ≠ [])
    (hnodup : ((scanFlightData states now).map (·.icao24)).Nodup) :
    (scanAircraft s (some states) now).flights = scanFlightData states now ∧
    (scanAircraft s (some states) now).lockedIcaos =
      ((scanFlightData states now).map (·.icao24)).toFinset ∧
    (scanAircraft s (some states) now).lockedIcaos.card =
      (scanFlightData states now).length := by
  have hlen : 0 < (scanFlightData states now).length := List.length_pos.mpr hne
  simp only [scanAircraft, gt_iff_lt, if_pos hlen]
  refine ⟨trivial, trivial, ?_⟩
  rw [List.toFinset_card_of_nodup hnodup, List.length_map]

/-- Witness for C2's amended theorem: rescanning an empty tracker with the
single-aircraft response `[A]`. -/
theorem rescan_wholesale_replaces_witness :
    (scanFlightData [svA] 0 ≠ [] ∧
      ((scanFlightData [svA] 0).map (·.icao24)).Nodup) ∧
    (scanAircraft ⟨[], ∅, 0⟩ (some [svA]) 0).flights = scanFlightData [svA] 0 ∧
    (scanAircraft ⟨[], ∅, 0⟩ (some [svA]) 0).lockedIcaos =
      ((scanFlightData [svA] 0).map (·.icao24)).toFinset ∧
    (scanAircraft ⟨[], ∅, 0⟩ (some [svA]) 0).lockedIcaos.card =
      (scanFlightData [svA] 0).length :=
  ⟨⟨by decide, by decide⟩,
   rescan_wholesale_replaces ⟨[], ∅, 0⟩ [svA] 0 (by decide) (by decide)⟩

/-! ## C7 — failed rescans are atomic -/

/-- C7.  A rescan that fails — the fetch throws / the response has no usable
`states` array (`none`), or every returned state is filtered out — leaves the
tracked state (flight list and locked set) completely untouched. -/
theorem rescan_failure_leaves_state_untouched (s : TrackState)
    (states : List AdsbStateVec) (now : ℕ)
    (hempty : scanFlightData states now = []) :
    scanAircraft s none now = s ∧ scanAircraft s (some states) now = s := by
  refine ⟨rfl, ?_⟩
  simp [scanAircraft, hempty]

/-- Witness for C7: a response containing only an on-ground aircraft filters to
nothing and changes nothing. -/
theorem rescan_failure_leaves_state_untouched_witness :
    scanFlightData [svGround] 7 = [] ∧
    scanAircraft trackedABC none 7 = trackedABC ∧
    scanAircraft trackedABC (some [svGround]) 7 = trackedABC :=
  ⟨by decide,
   (rescan_failure_leaves_state_untouched trackedABC [svGround] 7 (by decide)).1,
   (rescan_failure_leaves_state_untouched trackedABC [svGround] 7 (by decide)).2⟩

/-! ## C3 — position-only updates never change the tracked membership -/

theorem jsMapSet_get {K V : Type} [DecidableEq K] (m : List (K × V))
    (k k' : K) (v : V) :
    jsMapGet (jsMapSet m k' v) k = if k' = k then some v else jsMapGet m k := by
  induction m with
  | nil => simp [jsMapSet, jsMapGet]
  | cons kv rest ih =>
    obtain ⟨k₀, v₀⟩ := kv
    simp only [jsMapSet]
    by_cases h0 : k₀ = k'
    · subst h0
      rw [if_pos rfl]
      by_cases h : k₀ = k <;> simp [jsMapGet, h]
    · rw [if_neg h0]
      by_cases h : k₀ = k
      · have hk : ¬k' = k := fun hc => h0 (h.trans hc.symm)
        simp [jsMapGet, h, hk]
      · simp [jsMapGet, h, ih]

theorem buildNewPositions_get_none (states : List AdsbStateVec)
    (locked : Finset String) (k : String)
    (hk : k ∉ states.map (·.icao24)) :
    jsMapGet (buildNewPositions states locked) k = none := by
  suffices h : ∀ init : List (String × AdsbStateVec), jsMapGet init k = none →
      jsMapGet (states.foldl
        (fun m st => if st.icao24 ∈ locked then jsMapSet m st.icao24 st else m)
        init) k = none by
    exact h [] rfl
  induction states with
  | nil => intro init h; exact h
  | cons st rest ih =>
    intro init hinit
    simp only [List.map_cons, List.mem_cons, not_or] at hk
    simp only [List.foldl_cons]
    refine ih hk.2 _ ?_
    by_cases hmem : st.icao24 ∈ locked
    · rw [if_pos hmem, jsMapSet_get, if_neg (Ne.symm hk.1)]
      exact hinit
    · rwa [if_neg hmem]

theorem updateFlight_icao24 (newPositions : List (String × AdsbStateVec))
    (now : ℕ) (flight : Flight) :
    (updateFlight newPositions now flight).icao24 = flight.icao24 := by
  unfold updateFlight
  cases jsMapGet newPositions flight.icao24 with
  | none => rfl
  | some u => dsimp only; split <;> rfl

theorem updateFlight_absent (newPositions : List (String × AdsbStateVec))
    (now : ℕ) (flight : Flight)
    (h : jsMapGet newPositions flight.icao24 = none) :
    updateFlight newPositions now flight = flight := by
  unfold updateFlight
  rw [h]

/-- C3.  A position-only update never changes the locked ICAO set nor the
tracked ICAO sequence; a tracked aircraft absent from the response keeps its
record verbatim (response entries for unlocked aircraft are ignored by the
same token).  Concretely: after `{A, B, C}` is locked, an update answering only
`{A, C}` keeps the tracked sequence `a, b, c`, leaves B's record (and its
position) unchanged and refreshes A's and C's coordinates; an update answering
only the unlocked `{D}` changes nothing at all. -/
theorem update_positions_preserves_membership :
    (∀ (s : TrackState) (resp : Option (List AdsbStateVec)) (now : ℕ),
      (updatePositions s resp now).lockedIcaos = s.lockedIcaos ∧
      (updatePositions s resp now).flights.map (·.icao24) =
        s.flights.map (·.icao24)) ∧
    (∀ (s : TrackState) (states : List AdsbStateVec) (now : ℕ),
      List.Forall₂
        (fun old new => old.icao24 = new.icao24 ∧
          (old.icao24 ∉ states.map (·.icao24) → new = old))
        s.flights (updatePositions s (some states) now).flights) ∧
    ((updatePositions trackedABC (some [svA', svC']) 3).flights.map (·.icao24) =
        ["a", "b", "c"] ∧
      (updatePositions trackedABC (some [svA', svC']) 3).lockedIcaos =
        trackedABC.lockedIcaos ∧
      (updatePositions trackedABC (some [svA', svC']) 3).flights[1]? =
        trackedABC.flights[1]? ∧
      (updatePositions trackedABC (some [svA', svC']) 3).flights[0]?.map
          (fun f => (f.latitude, f.longitude)) = some (40, 135) ∧
      (updatePositions trackedABC (some [svA', svC']) 3).flights[2]?.map
          (fun f => (f.latitude, f.longitude)) = some (41, 136) ∧
      updatePositions trackedABC (some [svD]) 3 = trackedABC) := by
  have hframe : ∀ (s : TrackState) (states : List AdsbStateVec) (now : ℕ),
      List.Forall₂
        (fun old new => old.icao24 = new.icao24 ∧
          (old.icao24 ∉ states.map (·.icao24) → new = old))
        s.flights (updatePositions s (some states) now).flights := by
    intro s states now
    unfold updatePositions
    by_cases hempty : s.lockedIcaos = ∅
    · rw [if_pos hempty]
      exact List.forall₂_same.mpr fun f _ => ⟨rfl, fun _ => rfl⟩
    · rw [if_neg hempty]
      dsimp only
      rw [List.forall₂_map_right_iff]
      refine List.forall₂_same.mpr fun f _ => ?_
      refine ⟨(updateFlight_icao24 _ now f).symm, fun habsent => ?_⟩
      exact updateFlight_absent _ now f
        (buildNewPositions_get_none states s.lockedIcaos f.icao24 habsent)
  have hmap : ∀ (s : TrackState) (resp : Option (List AdsbStateVec)) (now : ℕ),
      (updatePositions s resp now).flights.map (·.icao24) =
        s.flights.map (·.icao24) := by
    intro s resp now
    unfold updatePositions
    by_cases hempty : s.lockedIcaos = ∅
    · rw [if_pos hempty]
    · rw [if_neg hempty]
      cases resp with
      | none => rfl
      | some states =>
        dsimp only
        rw [List.map_map]
        exact List.map_congr_left fun f _ => updateFlight_icao24 _ now f
  refine ⟨fun s resp now => ⟨?_, hmap s resp now⟩, hframe,
    by decide, by decide, by decide, by decide, by decide, by decide⟩
  unfold updatePositions
  by_cases hempty : s.lockedIcaos = ∅
  · rw [if_pos hempty]
  · rw [if_neg hempty]
    cases resp <;> rfl

/-- Witness for C3 at the rescan-then-update scenario of the claim. -/
theorem update_positions_preserves_membership_witness :
    (updatePositions trackedABC (some [svA', svC']) 3).lockedIcaos =
      trackedABC.lockedIcaos ∧
    (updatePositions trackedABC (some [svA', svC']) 3).flights.map (·.icao24) =
      trackedABC.flights.map (·.icao24) ∧
    List.Forall₂
      (fun old new => old.icao24 = new.icao24 ∧
        (old.icao24 ∉ [svA', svC'].map (·.icao24) → new = old))
      trackedABC.flights
      (updatePositions trackedABC (some [svA', svC']) 3).flights :=
  ⟨(update_positions_preserves_membership.1 trackedABC (some [svA', svC']) 3).1,
   (update_positions_preserves_membership.1 trackedABC (some [svA', svC']) 3).2,
   update_positions_preserves_membership.2.1 trackedABC [svA', svC'] 3⟩

/-! ## C10 — the tracked population is airborne and positioned -/

/-- C10.  Every flight a rescan produces comes from a response state that had a
non-null position and `on_ground = false`, and its own `onGround` field is
`false`; consequently `scanAircraft` preserves the all-airborne invariant; and
on the server side a state maps to `on_ground = false` exactly when its
`alt_baro` is neither the string `"ground"` nor the number `0`. -/
theorem tracked_population_airborne :
    (∀ (states : List AdsbStateVec) (now : ℕ),
      ∀ f ∈ scanFlightData states now,
        f.onGround = false ∧
        ∃ st ∈ states, st.on_ground = false ∧ st.latitude.isSome ∧
          st.longitude.isSome ∧ f = mkScannedFlight st now) ∧
    (∀ (s : TrackState) (resp : Option (List AdsbStateVec)) (now : ℕ),
      (∀ f ∈ s.flights, f.onGround = false) →
        ∀ f ∈ (scanAircraft s resp now).flights, f.onGround = false) ∧
    (∀ (getCountryFromReg : String → String) (ac : AdsbLolAc),
      (toStateVector getCountryFromReg ac).on_ground = false ↔
        (ac.alt_baro ≠ .ground ∧ ac.alt_baro ≠ .num 0)) := by
  have hfilter : ∀ (states : List AdsbStateVec) (now : ℕ),
      ∀ f ∈ scanFlightData states now,
        f.onGround = false ∧
        ∃ st ∈ states, st.on_ground = false ∧ st.latitude.isSome ∧
          st.longitude.isSome ∧ f = mkScannedFlight st now := by
    intro states now f hf
    unfold scanFlightData at hf
    rw [List.mem_map] at hf
    obtain ⟨st, hst, rfl⟩ := hf
    rw [List.mem_filter] at hst
    obtain ⟨hst1, hg⟩ := hst
    rw [List.mem_filter] at hst1
    obtain ⟨hmem, hpos⟩ := hst1
    rw [Bool.not_eq_true'] at hg
    rw [Bool.and_eq_true] at hpos
    exact ⟨hg, st, hmem, hg, hpos.1, hpos.2, rfl⟩
  refine ⟨hfilter, ?_, ?_⟩
  · intro s resp now hinv f hf
    cases resp with
    | none => exact hinv f hf
    | some states =>
      simp only [scanAircraft, gt_iff_lt] at hf
      by_cases hlen : 0 < (scanFlightData states now).length
      · rw [if_pos hlen] at hf
        exact (hfilter states now f hf).1
      · rw [if_neg hlen] at hf
        exact hinv f hf
  · intro getCountryFromReg ac
    cases h : ac.alt_baro with
    | num v =>
      by_cases hv : v = 0 <;>
        simp [toStateVector, h, hv]
    | ground => simp [toStateVector, h]
    | undef => simp [toStateVector, h]

/-- Witness for C10: the concrete airborne state `A` and the on-ground adsb.lol
aircraft shapes. -/
theorem tracked_population_airborne_witness :
    ((mkScannedFlight svA 0).onGround = false ∧
      ∃ st ∈ [svA], st.on_ground = false ∧ st.latitude.isSome ∧
        st.longitude.isSome ∧ mkScannedFlight svA 0 = mkScannedFlight st 0) ∧
    (∀ f ∈ (scanAircraft ⟨[], ∅, 0⟩ (some [svA, svGround]) 0).flights,
      f.onGround = false) ∧
    ((toStateVector id ⟨"aa", none, none, some 1, some 2, .ground, none, none,
        none⟩).on_ground = false ↔
      ((JsAltBaro.ground : JsAltBaro) ≠ .ground ∧
        (JsAltBaro.ground : JsAltBaro) ≠ .num 0)) :=
  ⟨tracked_population_airborne.1 [svA] 0 (mkScannedFlight svA 0) (by decide),
   tracked_population_airborne.2.1 ⟨[], ∅, 0⟩ (some [svA, svGround]) 0
     (by intro f hf; cases hf),
   tracked_population_airborne.2.2 id _⟩

/-! ## C4 — the bounded caches overflow their bound by one -/

theorem jsMapGet_eq_none_of_not_mem {K V : Type} [DecidableEq K]
    (m : List (K × V)) (k : K) (hk : k ∉ m.map Prod.fst) : jsMapGet m k = none := by
  induction m with
  | nil => rfl
  | cons kv rest ih =>
    simp only [List.map_cons, List.mem_cons, not_or] at hk
    obtain ⟨k₀, v₀⟩ := kv
    show (if k₀ = k then some v₀ else jsMapGet rest k) = none
    rw [if_neg fun hc : k₀ = k => hk.1 hc.symm]
    exact ih hk.2

theorem jsMapSet_length_new {K V : Type} [DecidableEq K]
    (m : List (K × V)) (k : K) (v : V) (hk : k ∉ m.map Prod.fst) :
    (jsMapSet m k v).length = m.length + 1 := by
  induction m with
  | nil => rfl
  | cons kv rest ih =>
    simp only [List.map_cons, List.mem_cons, not_or] at hk
    obtain ⟨k₀, v₀⟩ := kv
    simp only [jsMapSet, if_neg fun hc : k₀ = k => hk.1 hc.symm,
      List.length_cons, ih hk.2]

theorem jsMapSet_length_mem {K V : Type} [DecidableEq K]
    (m : List (K × V)) (k : K) (v : V) (hk : k ∈ m.map Prod.fst) :
    (jsMapSet m k v).length = m.length := by
  induction m with
  | nil => cases hk
  | cons kv rest ih =>
    obtain ⟨k₀, v₀⟩ := kv
    by_cases h : k₀ = k
    · simp [jsMapSet, h]
    · simp only [List.map_cons, List.mem_cons] at hk
      rcases hk with hk | hk
      · exact absurd hk.symm h
      · simp [jsMapSet, h, ih hk]

theorem enforceMaxCacheSize_of_le {K V : Type} (cache : List (K × V))
    (maxSize : ℕ) (h : cache.length ≤ maxSize) :
    enforceMaxCacheSize cache maxSize = cache := by
  unfold enforceMaxCacheSize
  exact if_pos h

/-- A route cache filled to exactly `ROUTE_CACHE_MAX_SIZE` entries with
pairwise-distinct all-`'a'` callsign keys. -/
def atCapacityRouteCache : List (String × RouteEntry) :=
  (List.range ROUTE_CACHE_MAX_SIZE).map fun i =>
    ((⟨List.replicate i 'a'⟩ : String),
     { callsign := ⟨List.replicate i 'a'⟩, origin := none, destination := none
       route := none, fetchedAt := 0 })

/-- A track cache filled to exactly `TRACK_CACHE_MAX_SIZE` ICAO buffers. -/
def atCapacityTrackCache : List (String × List TrackPoint) :=
  (List.range TRACK_CACHE_MAX_SIZE).map fun i =>
    ((⟨List.replicate i 'a'⟩ : String), [])

theorem replicate_key_ne_of_mem {i : ℕ} {s : String} {c : Char}
    (hc : c ∈ s.data) (hca : c ≠ 'a')
    (h : (⟨List.replicate i 'a'⟩ : String) = s) : False := by
  have hdata : List.replicate i 'a' = s.data := congrArg String.data h
  rw [← hdata] at hc
  rw [List.mem_replicate] at hc
  exact hca hc.2

theorem newRouteKey_not_mem :
    ("JL910" : String) ∉ atCapacityRouteCache.map Prod.fst := by
  unfold atCapacityRouteCache
  rw [List.map_map, List.mem_map]
  rintro ⟨i, -, hEq⟩
  exact replicate_key_ne_of_mem (s := "JL910") (c := 'J') (by decide) (by decide) hEq

theorem newTrackKey_not_mem :
    ("zz99" : String) ∉ atCapacityTrackCache.map Prod.fst := by
  unfold atCapacityTrackCache
  rw [List.map_map, List.mem_map]
  rintro ⟨i, -, hEq⟩
  exact replicate_key_ne_of_mem (s := "zz99") (c := 'z') (by decide) (by decide) hEq

/-- C4 shows a code bug: `enforceMaxCacheSize` runs *before* the insertion and
only evicts when `size` already *exceeds* `maxSize`, so inserting a new key
into a cache holding exactly its maximum leaves `maxSize + 1` entries — one
more than the claim (and the constants' own "最多缓存…" comments) allow.  Both
bounded caches overflow: caching a new route at 2000 entries yields 2001, and
buffering a new aircraft track at 500 buffers yields 501. -/
theorem cache_insert_at_capacity_overflows :
    atCapacityRouteCache.length = ROUTE_CACHE_MAX_SIZE ∧
    enforceMaxCacheSize atCapacityRouteCache ROUTE_CACHE_MAX_SIZE =
      atCapacityRouteCache ∧
    (fetchRoute atCapacityRouteCache (some "JL910") 7 .err).cache.length =
      ROUTE_CACHE_MAX_SIZE + 1 ∧
    atCapacityTrackCache.length = TRACK_CACHE_MAX_SIZE ∧
    (updateTrackCacheOne atCapacityTrackCache 7
        ⟨"zz99", none, none, some 1, some 2, .num 100, none, none, none⟩).length =
      TRACK_CACHE_MAX_SIZE + 1 := by
  have hlenR : atCapacityRouteCache.length = ROUTE_CACHE_MAX_SIZE := by
    unfold atCapacityRouteCache
    rw [List.length_map, List.length_range]
  have hlenT : atCapacityTrackCache.length = TRACK_CACHE_MAX_SIZE := by
    unfold atCapacityTrackCache
    rw [List.length_map, List.length_range]
  have henfR : enforceMaxCacheSize atCapacityRouteCache ROUTE_CACHE_MAX_SIZE =
      atCapacityRouteCache :=
    enforceMaxCacheSize_of_le _ _ (le_of_eq hlenR)
  have henfT : enforceMaxCacheSize atCapacityTrackCache TRACK_CACHE_MAX_SIZE =
      atCapacityTrackCache :=
    enforceMaxCacheSize_of_le _ _ (le_of_eq hlenT)
  refine ⟨hlenR, henfR, ?_, hlenT, ?_⟩
  · have hmiss : jsMapGet atCapacityRouteCache "JL910" = none :=
      jsMapGet_eq_none_of_not_mem _ _ newRouteKey_not_mem
    have htrim : jsTrim "JL910" = "JL910" := rfl
    have hupper : jsUpper ("JL910" : String) = "JL910" := rfl
    simp only [fetchRoute, htrim, hupper, hmiss]
    rw [if_neg (by decide : ¬("JL910" : String) = "")]
    rw [if_neg (by simp : ¬((match (none : Option RouteEntry) with
      | some c => decide (7 - c.fetchedAt < ROUTE_CACHE_MAX_AGE)
      | none => false) = true))]
    simp only [henfR]
    rw [jsMapSet_length_new _ _ _ newRouteKey_not_mem, hlenR]
  · have hmiss : jsMapGet atCapacityTrackCache "zz99" = none :=
      jsMapGet_eq_none_of_not_mem _ _ newTrackKey_not_mem
    have hlower : jsLower "zz99" = "zz99" := by decide
    simp only [updateTrackCacheOne]
    rw [if_neg (by decide : ¬("zz99" : String) = "")]
    simp only [hlower, hmiss, Option.isSome_none, Bool.false_eq_true, if_false,
      henfT]
    have hmem : ("zz99" : String) ∈
        (jsMapSet atCapacityTrackCache "zz99"
          ([] : List TrackPoint)).map Prod.fst := by
      have := jsMapSet_get atCapacityTrackCache "zz99" "zz99" ([] : List TrackPoint)
      rw [if_pos rfl] at this
      by_contra hc
      rw [jsMapGet_eq_none_of_not_mem _ _ hc] at this
      cases this
    rw [jsMapSet_length_mem _ _ _ hmem,
      jsMapSet_length_new _ _ _ newTrackKey_not_mem, hlenT]

/-! ## C9 — negative route lookups and the once-per-lifetime property -/

/-- C9 counterexample: when hexdb.io answers *successfully but without a
`route` field*, `fetchRoute` caches nothing (only the thrown-request path
caches a negative entry), so the same identifier contacts the upstream again
1 s later — well inside the 1-hour cache lifetime — refuting "at most once per
cache lifetime" for every identifier. -/
theorem route_miss_without_route_field_not_cached :
    (fetchRoute [] (some "JL910") 0 (.ok none)).contactedUpstream = true ∧
    (fetchRoute [] (some "JL910") 0 (.ok none)).cache = [] ∧
    (fetchRoute (fetchRoute [] (some "JL910") 0 (.ok none)).cache
        (some "JL910") 1000 (.ok none)).contactedUpstream = true ∧
    1000 - 0 < ROUTE_CACHE_MAX_AGE := by
  refine ⟨by decide, by decide, by decide, by decide⟩

/-- C9 (amended).  A *thrown* route request is cached as a negative entry under
the normalised (trimmed, upper-cased) identifier exactly like a positive
result, and any later lookup of the same identifier within the cache lifetime
is served from the cache without contacting the upstream; only a successful
response lacking a `route` field escapes caching. -/
theorem negative_route_lookup_cached (cache : List (String × RouteEntry))
    (cs : String) (now now' : ℕ) (resp2 : HexdbResponse)
    (hcs : jsTrim cs ≠ "")
    (hmiss : jsMapGet cache (jsUpper (jsTrim cs)) = none)
    (hfresh : now' - now < ROUTE_CACHE_MAX_AGE) :
    (fetchRoute cache (some cs) now .err).contactedUpstream = true ∧
    jsMapGet (fetchRoute cache (some cs) now .err).cache (jsUpper (jsTrim cs)) =
      some { callsign := jsUpper (jsTrim cs), origin := none, destination := none
             route := none, fetchedAt := now } ∧
    (fetchRoute (fetchRoute cache (some cs) now .err).cache
        (some cs) now' resp2).contactedUpstream = false ∧
    (fetchRoute (fetchRoute cache (some cs) now .err).cache
        (some cs) now' resp2).cache =
      (fetchRoute cache (some cs) now .err).cache ∧
    (fetchRoute (fetchRoute cache (some cs) now .err).cache
        (some cs) now' resp2).result =
      some { callsign := jsUpper (jsTrim cs), origin := none, destination := none
             route := none, fetchedAt := now } := by
  have hstep1 : fetchRoute cache (some cs) now .err =
      ⟨none,
       jsMapSet (enforceMaxCacheSize cache ROUTE_CACHE_MAX_SIZE)
         (jsUpper (jsTrim cs))
         { callsign := jsUpper (jsTrim cs), origin := none, destination := none
           route := none, fetchedAt := now },
       true⟩ := by
    simp only [fetchRoute, hmiss]
    rw [if_neg hcs]
    rfl
  have hget2 : jsMapGet
      (jsMapSet (enforceMaxCacheSize cache ROUTE_CACHE_MAX_SIZE)
        (jsUpper (jsTrim cs))
        { callsign := jsUpper (jsTrim cs), origin := none, destination := none
          route := none, fetchedAt := now })
      (jsUpper (jsTrim cs)) =
      some { callsign := jsUpper (jsTrim cs), origin := none, destination := none
             route := none, fetchedAt := now } := by
    rw [jsMapSet_get, if_pos rfl]
  have hstep2 : fetchRoute
      (jsMapSet (enforceMaxCacheSize cache ROUTE_CACHE_MAX_SIZE)
        (jsUpper (jsTrim cs))
        { callsign := jsUpper (jsTrim cs), origin := none, destination := none
          route := none, fetchedAt := now })
      (some cs) now' resp2 =
      ⟨some { callsign := jsUpper (jsTrim cs), origin := none
              destination := none, route := none, fetchedAt := now },
       jsMapSet (enforceMaxCacheSize cache ROUTE_CACHE_MAX_SIZE)
         (jsUpper (jsTrim cs))
         { callsign := jsUpper (jsTrim cs), origin := none, destination := none
           route := none, fetchedAt := now },
       false⟩ := by
    simp only [fetchRoute, hget2]
    rw [if_neg hcs, if_pos (by simpa using hfresh)]
  rw [hstep1]
  exact ⟨rfl, hget2, by rw [hstep2], by rw [hstep2], by rw [hstep2]⟩

/-- Witness for C9's amended theorem at the identifier `" jl910 "`. -/
theorem negative_route_lookup_cached_witness :
    (jsTrim " jl910 " ≠ "" ∧
      jsMapGet ([] : List (String × RouteEntry))
        (jsUpper (jsTrim " jl910 ")) = none ∧
      1000 - 0 < ROUTE_CACHE_MAX_AGE) ∧
    (fetchRoute [] (some " jl910 ") 0 .err).contactedUpstream = true ∧
    jsMapGet (fetchRoute [] (some " jl910 ") 0 .err).cache
        (jsUpper (jsTrim " jl910 ")) =
      some { callsign := jsUpper (jsTrim " jl910 "), origin := none
             destination := none, route := none, fetchedAt := 0 } ∧
    (fetchRoute (fetchRoute [] (some " jl910 ") 0 .err).cache
        (some " jl910 ") 1000 .err).contactedUpstream = false :=
  ⟨⟨by decide, by decide, by decide⟩,
   (negative_route_lookup_cached [] " jl910 " 0 1000 .err (by decide) (by decide)
      (by decide)).1,
   (negative_route_lookup_cached [] " jl910 " 0 1000 .err (by decide) (by decide)
      (by decide)).2.1,
   (negative_route_lookup_cached [] " jl910 " 0 1000 .err (by decide) (by decide)
      (by decide)).2.2.1⟩

/-! ## C8 — schedule cache TTL and refresh floor -/

/-- C8.  A cached schedule entry is served unchanged (without an upstream call)
whenever its age is under the 10-minute TTL *or* under the 5-minute refresh
floor — in particular at age 7 min — and triggers an upstream refresh
otherwise, in particular at age 11 min.  (With TTL > floor the floor clause
adds nothing: an entry older than the TTL but younger than the floor is
impossible, hence vacuously served unchanged.) -/
theorem schedule_cache_ttl_and_floor (D : Type) (e : SchedCacheEntry D)
    (now : ℕ) :
    getAirportScheduleStep (some e) (e.lastUpdate + 7 * 60 * 1000) false =
      .cachedData e.data ∧
    getAirportScheduleStep (some e) (e.lastUpdate + 11 * 60 * 1000) false =
      .refreshed ∧
    (getAirportScheduleStep (some e) now false = .cachedData e.data ↔
      (now - e.lastUpdate < SCHEDULE_CACHE_TTL ∨
        now - e.lastUpdate < MIN_REFRESH_INTERVAL)) := by
  have h7 : e.lastUpdate + 7 * 60 * 1000 - e.lastUpdate = 7 * 60 * 1000 := by
    omega
  have h11 : e.lastUpdate + 11 * 60 * 1000 - e.lastUpdate = 11 * 60 * 1000 := by
    omega
  unfold getAirportScheduleStep SCHEDULE_CACHE_TTL MIN_REFRESH_INTERVAL
  simp only [Bool.not_false, if_true, h7, h11]
  refine ⟨by rw [if_pos (by omega)], by rw [if_neg (by omega), if_neg (by omega)], ?_⟩
  by_cases h1 : now - e.lastUpdate < 10 * 60 * 1000
  · rw [if_pos h1]
    simp [h1]
  · rw [if_neg h1]
    rw [if_neg (by omega)]
    simp only [h1, false_or]
    constructor
    · intro hc; cases hc
    · omega

/-- Witness for C8 at a concrete entry loaded at `t = 0`. -/
theorem schedule_cache_ttl_and_floor_witness :
    getAirportScheduleStep (some (⟨7, 0, 0⟩ : SchedCacheEntry ℕ))
      ((⟨7, 0, 0⟩ : SchedCacheEntry ℕ).lastUpdate + 7 * 60 * 1000) false =
      .cachedData 7 ∧
    getAirportScheduleStep (some (⟨7, 0, 0⟩ : SchedCacheEntry ℕ))
      ((⟨7, 0, 0⟩ : SchedCacheEntry ℕ).lastUpdate + 11 * 60 * 1000) false =
      .refreshed :=
  ⟨(schedule_cache_ttl_and_floor ℕ ⟨7, 0, 0⟩ (7 * 60 * 1000)).1,
   (schedule_cache_ttl_and_floor ℕ ⟨7, 0, 0⟩ (7 * 60 * 1000)).2.1⟩

/-! ## C6 — flight-identifier reconciliation -/

/-- C6.  Identifier matching normalises both sides and translates 2-character
carrier prefixes through `IATA_TO_ICAO`: with the `("JL", "JAL")` entry the
live callsign `JAL910` matches the scheduled number `JL910` (whitespace and
case notwithstanding); a 2-character prefix absent from the table, or an
identifier that does not parse as carrier code + digits, passes through as the
normalised string. -/
theorem identifier_reconciliation :
    flightNumberMatchesCallsign (some "JL910") (some "JAL910") = true ∧
    convertIataToIcao (some "JL910") = some "JAL910" ∧
    convertIataToIcao (some " jl 910 ") = some "JAL910" ∧
    (∀ (s : String) (code num : List Char),
      s ≠ "" → matchFlightCode (normalizeIdent s).data = some (code, num) →
      code.length = 2 → jsMapGet IATA_TO_ICAO (⟨code⟩ : String) = none →
      convertIataToIcao (some s) = some (normalizeIdent s)) ∧
    (∀ s : String, s ≠ "" → matchFlightCode (normalizeIdent s).data = none →
      convertIataToIcao (some s) = some (normalizeIdent s)) := by
  refine ⟨by decide, by decide, by decide, ?_, ?_⟩
  · intro s code num hs hmatch hlen hlookup
    simp only [convertIataToIcao]
    rw [if_neg hs, hmatch]
    dsimp only
    rw [if_pos hlen, hlookup]
  · intro s hs hmatch
    simp only [convertIataToIcao]
    rw [if_neg hs, hmatch]

/-- Witness for C6's pass-through clauses: `ZZ123` (unmapped 2-character
prefix) and `X1Y2Z` (not carrier code + digits). -/
theorem identifier_reconciliation_witness :
    (("ZZ123" : String) ≠ "" ∧
      matchFlightCode (normalizeIdent "ZZ123").data =
        some (['Z', 'Z'], ['1', '2', '3']) ∧
      (['Z', 'Z'] : List Char).length = 2 ∧
      jsMapGet IATA_TO_ICAO "ZZ" = none ∧
      convertIataToIcao (some "ZZ123") = some (normalizeIdent "ZZ123")) ∧
    (("X1Y2Z" : String) ≠ "" ∧
      matchFlightCode (normalizeIdent "X1Y2Z").data = none ∧
      convertIataToIcao (some "X1Y2Z") = some (normalizeIdent "X1Y2Z")) :=
  ⟨⟨by decide, by decide, by decide, by decide,
    identifier_reconciliation.2.2.2.1 "ZZ123" ['Z', 'Z'] ['1', '2', '3']
      (by decide) (by decide) (by decide) (by decide)⟩,
   ⟨by decide, by decide,
    identifier_reconciliation.2.2.2.2 "X1Y2Z" (by decide) (by decide)⟩⟩

end FlightTracker
